import Mathlib

/-!
Shallow embedding of the manifest-amm SDK order-book core
(`sdk/src/state/resting_order.rs`, `sdk/src/state/market.rs`,
`sdk/src/state/global.rs`, `sdk/src/utils.rs`) and proofs about it.

Machine integers are embedded as `Nat`; overflow/underflow of checked
operations is modelled with `Option` (`none` = the arithmetic error /
assertion failure path), and the one place where the source performs an
unchecked machine subtraction is modelled with explicit wrap-around
arithmetic modulo `2^128`.

The `quantities` module (fixed-point prices, atom wrappers) and the
`hypertree` crate (red-black tree) are declared by the crate but their
sources are not part of the SDK sources embedded here; where an
operation of theirs is needed it is modelled from the specification and
marked `Modelled from the spec:` in its doc comment.
-/

namespace Manifest

/-- 2^64, the bound of a `u64` quantity (`BaseAtoms`, `QuoteAtoms`,
`GlobalAtoms` are `u64` wrappers). -/
def u64Limit : Nat := 2 ^ 64

/-- 2^128, the bound of the 128-bit internal price representation. -/
def u128Limit : Nat := 2 ^ 128

/-- `NO_EXPIRATION_LAST_VALID_SLOT` from `constants.rs`: expiration slot 0
means the order never expires. -/
def NO_EXPIRATION_LAST_VALID_SLOT : Nat := 0

/-- Modelled from the spec: the fixed-point price type
`QuoteAtomsPerBaseAtom` of the missing `quantities` module.  Per the spec
glossary it is a "fixed-point value expressing quote-quantity per
base-quantity"; `resting_order.rs` accesses its 128-bit internal
representation as `u64_slice_to_u128(price.inner)`.  We keep the 128-bit
mantissa `inner`; the represented price is `inner / PRICE_SCALE`. -/
structure QuoteAtomsPerBaseAtom where
  inner : Nat
deriving DecidableEq, Repr

/-- Modelled from the spec: the fixed-point scale of the price mantissa.
The spec fixes no concrete value; the claims proved here depend only on
the scenario prices being representable, which any power of ten gives. -/
def PRICE_SCALE : Nat := 10 ^ 18

/-- Modelled from the spec (§4.6 step 4, §7): convert a base quantity to a
quote quantity through the price ratio, with the rounding direction a
single explicit boolean (`true` = round up); exact rational arithmetic,
failing (`none`) rather than wrapping when the `u64` result overflows. -/
def QuoteAtomsPerBaseAtom.checked_quote_for_base
    (p : QuoteAtomsPerBaseAtom) (base_atoms : Nat) (round_up : Bool) : Option Nat :=
  let exact : Nat := base_atoms * p.inner
  let q : Nat := if round_up then (exact + (PRICE_SCALE - 1)) / PRICE_SCALE
                 else exact / PRICE_SCALE
  if q < u64Limit then some q else none

/-- Modelled from the spec (§4.6 step 4, §7): convert a quote quantity to a
base quantity through the price ratio, rounding per the boolean
(`true` = round up); fails (`none`) on a zero price (division by zero is
a fatal arithmetic error per §7) or on `u64` overflow of the result. -/
def QuoteAtomsPerBaseAtom.checked_base_for_quote
    (p : QuoteAtomsPerBaseAtom) (quote_atoms : Nat) (round_up : Bool) : Option Nat :=
  if p.inner = 0 then none
  else
    let exact : Nat := quote_atoms * PRICE_SCALE
    let b : Nat := if round_up then (exact + (p.inner - 1)) / p.inner
                   else exact / p.inner
    if b < u64Limit then some b else none

/-- Modelled from the spec (§4.2.7 reverse orders, §7): multiply the price
by the exact rational `num / den`, rounding per the boolean (`true` =
round up); fails (`none`) rather than wrapping when the 128-bit result
overflows (or on a zero denominator). -/
def QuoteAtomsPerBaseAtom.checked_multiply_rational
    (p : QuoteAtomsPerBaseAtom) (num den : Nat) (round_up : Bool) :
    Option QuoteAtomsPerBaseAtom :=
  if den = 0 then none
  else
    let v : Nat := if round_up then (p.inner * num + (den - 1)) / den
                   else p.inner * num / den
    if v < u128Limit then some ⟨v⟩ else none

/-- `OrderType` from `resting_order.rs`. -/
inductive OrderType where
  | Limit
  | ImmediateOrCancel
  | PostOnly
  | Global
  | Reverse
  | ReverseTight
deriving DecidableEq, Repr

/-- `OrderType::is_reversible`. -/
def OrderType.is_reversible : OrderType → Bool
  | OrderType.Reverse => true
  | OrderType.ReverseTight => true
  | _ => false

/-- `RestingOrder` from `resting_order.rs` (padding omitted).
`price.inner` is the 128-bit fixed-point representation; `num_base_atoms`
is a `u64`; `trader_index` a `u32` `DataIndex`; `last_valid_slot` a
`u32`; `reverse_spread` a `u16`. -/
structure RestingOrder where
  price : QuoteAtomsPerBaseAtom
  num_base_atoms : Nat
  sequence_number : Nat
  trader_index : Nat
  last_valid_slot : Nat
  is_bid : Bool
  order_type : OrderType
  reverse_spread : Nat
deriving DecidableEq, Repr

/-- `RestingOrder::new`.  The source signature is
`Result<Self, ProgramError>`, but the body never returns `Err`: the
reversible-with-expiration invariant is enforced by `assert!`, a fatal
panic.  `none` here models that assertion failure; every other input
constructs the order (with `reverse_spread` defaulted to 0). -/
def RestingOrder.new (trader_index num_base_atoms : Nat)
    (price : QuoteAtomsPerBaseAtom) (sequence_number last_valid_slot : Nat)
    (is_bid : Bool) (order_type : OrderType) : Option RestingOrder :=
  if order_type.is_reversible ∧ last_valid_slot ≠ NO_EXPIRATION_LAST_VALID_SLOT then
    none
  else
    some { trader_index := trader_index
           num_base_atoms := num_base_atoms
           last_valid_slot := last_valid_slot
           price := price
           sequence_number := sequence_number
           is_bid := is_bid
           order_type := order_type
           reverse_spread := 0 }

/-- `RestingOrder::is_expired`. -/
def RestingOrder.is_expired (o : RestingOrder) (current_slot : Nat) : Bool :=
  decide (o.last_valid_slot ≠ NO_EXPIRATION_LAST_VALID_SLOT) &&
    decide (o.last_valid_slot < current_slot)

/-- `RestingOrder::reverse_price`.  For a bid the source multiplies by
`base / (base - spread)` (comment: "Bid @P --> Ask @P / (1 - spread)"),
rounding flag `false`; for an ask by `(base - spread) / base`, rounding
flag `true`. -/
def RestingOrder.reverse_price (o : RestingOrder) :
    Option QuoteAtomsPerBaseAtom :=
  match o.order_type with
  | OrderType.Reverse =>
      if o.is_bid then
        o.price.checked_multiply_rational 100000 (100000 - o.reverse_spread) false
      else
        o.price.checked_multiply_rational (100000 - o.reverse_spread) 100000 true
  | OrderType.ReverseTight =>
      if o.is_bid then
        o.price.checked_multiply_rational 100000000 (100000000 - o.reverse_spread) false
      else
        o.price.checked_multiply_rational (100000000 - o.reverse_spread) 100000000 true
  | _ => some o.price

/-- `impl Ord for RestingOrder`: bids compare by `self.price.cmp(&other.price)`,
asks by `other.price.cmp(&self.price)`.  Modelled from the spec for the
missing price type: ordering of a same-scale fixed-point value is the
ordering of its mantissa. -/
def RestingOrder.cmp (a b : RestingOrder) : Ordering :=
  if a.is_bid then compare a.price.inner b.price.inner
  else compare b.price.inner a.price.inner

/-- `impl PartialEq for RestingOrder`: false when trader indices or order
types differ; for reversible types, prices equal or whose 128-bit
representations differ by one (the source computes `p + 1` and `p - 1`
with unchecked `u128` arithmetic, embedded here as wrap-around modulo
`2^128`, which is the release-build behaviour); otherwise price equality
only.  The disjuncts short-circuit exactly as in the source. -/
def RestingOrder.eq (a b : RestingOrder) : Bool :=
  if a.trader_index ≠ b.trader_index ∨ a.order_type ≠ b.order_type then
    false
  else if a.order_type.is_reversible then
    decide (a.price = b.price) ||
      decide ((a.price.inner + 1) % u128Limit = b.price.inner) ||
      decide ((a.price.inner + (u128Limit - 1)) % u128Limit = b.price.inner)
  else
    decide (a.price = b.price)

/-- Whether evaluating `RestingOrder.eq a b` reaches the `u128`
subtraction `a.price - 1` with `a.price = 0`, i.e. whether the source's
unchecked subtraction underflows (a panic in debug builds, a wrap to
`2^128 - 1` in release builds).  The first two disjuncts short-circuit,
so the subtraction is reached only when both are false. -/
def RestingOrder.eqSubUnderflows (a b : RestingOrder) : Bool :=
  decide (a.trader_index = b.trader_index) &&
    decide (a.order_type = b.order_type) &&
    a.order_type.is_reversible &&
    !(decide (a.price = b.price)) &&
    !(decide ((a.price.inner + 1) % u128Limit = b.price.inner)) &&
    decide (a.price.inner = 0)

/-- `GlobalDeposit` from `global.rs`: trader identity (`Pubkey`, embedded
as `Nat`) and a `u64` token balance. -/
structure GlobalDeposit where
  trader : Nat
  balance_atoms : Nat
deriving DecidableEq, Repr

/-- `GlobalTrader` from `global.rs`: trader identity and the arena index
of the linked deposit node. -/
structure GlobalTrader where
  trader : Nat
  deposit_index : Nat
deriving DecidableEq, Repr

/-- The dynamic region of a global account as it matters to balance
lookups: the identity tree as the collection of its `GlobalTrader`
entries (keyed by trader, which is what `GlobalTrader`'s `Eq` compares),
and the deposit nodes addressable by arena index. -/
structure GlobalAccount where
  traders : List GlobalTrader
  deposits : Nat → GlobalDeposit

/-- `get_global_deposit` from `global.rs`: look up the trader in the
identity tree; on a hit, dereference the linked deposit node at
`deposit_index`; on a miss (`NIL`), `none`.  Modelled from the spec
(§4.2) for the missing `hypertree` crate: `lookup_exact(key)` on the
identity tree is lookup by the payload's equality, which for
`GlobalTrader` compares the trader key only. -/
def get_global_deposit (g : GlobalAccount) (trader : Nat) :
    Option GlobalDeposit :=
  match g.traders.find? (fun gt => gt.trader == trader) with
  | none => none
  | some gt => some (g.deposits gt.deposit_index)

/-- `get_balance_atoms` from `global.rs`: the looked-up deposit's balance,
or zero when the trader is not found (e.g. evicted). -/
def GlobalAccount.get_balance_atoms (g : GlobalAccount) (trader : Nat) : Nat :=
  match get_global_deposit g trader with
  | some global_deposit => global_deposit.balance_atoms
  | none => 0

/-- `GlobalTradeAccounts` from `validation/loaders.rs`, reduced to what
the read-only impact walk consumes: the global account whose balances
back global orders.  The account-ownership/token fields are validation
collaborators excluded by the spec. -/
structure GlobalTradeAccounts where
  global : GlobalAccount

/-- `can_back_order` from `utils.rs`: false when no accounts were
supplied; otherwise whether the trader's global balance covers the
desired amount.  (The source also refuses when the account data is
already mutably borrowed; that re-entrancy guard is an environment
condition outside this embedding.) -/
def can_back_order (global_trade_accounts_opt : Option GlobalTradeAccounts)
    (resting_order_trader : Nat) (desired_global_atoms : Nat) : Bool :=
  match global_trade_accounts_opt with
  | none => false
  | some global_trade_accounts =>
      decide (desired_global_atoms ≤
        global_trade_accounts.global.get_balance_atoms resting_order_trader)

/-- A market as the impact simulators read it: each book side as the list
of its resting orders in priority (tree-iteration) order, and the
claimed-seat table as the map from a `trader_index` to the trader key
(`get_trader_key_by_index`). -/
structure Market where
  bids : List RestingOrder
  asks : List RestingOrder
  trader_key_by_index : Nat → Nat

/-- `Market::is_unbacked_global_order` from `market.rs`: for a
`Global`-typed order, true when no global accounts were supplied, or
when `can_back_order` reports the counterparty's balance cannot cover
the matched base (taker bid) or quote (taker ask) amount; false for
every non-global order. -/
def Market.is_unbacked_global_order (m : Market) (resting_order : RestingOrder)
    (is_bid : Bool) (global_trade_accounts_opt : Option GlobalTradeAccounts)
    (matched_base_atoms matched_quote_atoms : Nat) : Bool :=
  if resting_order.order_type = OrderType.Global then
    if global_trade_accounts_opt.isNone then true
    else if can_back_order global_trade_accounts_opt
        (m.trader_key_by_index resting_order.trader_index)
        (if is_bid then matched_base_atoms else matched_quote_atoms) then
      false
    else true
  else false

/-- Checked `u64` addition (`checked_add` on atom quantities): `none` on
overflow. -/
def checked_add_u64 (a b : Nat) : Option Nat :=
  if a + b < u64Limit then some (a + b) else none

/-- Checked unsigned subtraction (`checked_sub` on atom quantities):
`none` on underflow. -/
def checked_sub_u64 (a b : Nat) : Option Nat :=
  if b ≤ a then some (a - b) else none

/-- The loop body of `Market::impact_quote_atoms_with_slot`, walking the
already-selected book side in priority order with the already-selected
global-accounts option, carrying `remaining_base_atoms` and
`total_matched_quote_atoms`.  Mirrors the source: skip expired; stop on
a global order with no accounts; match `min` of resting and remaining;
convert rounding in taker favor iff `is_bid != did_fully_match`; skip
unbacked global orders; accumulate; stop after a partial fill. -/
def impactQuoteLoop (m : Market) (is_bid : Bool)
    (required_global_opt : Option GlobalTradeAccounts) (now_slot : Nat) :
    List RestingOrder → Nat → Nat → Option Nat
  | [], _, total_matched_quote_atoms => some total_matched_quote_atoms
  | resting_order :: rest, remaining_base_atoms, total_matched_quote_atoms =>
    if resting_order.is_expired now_slot then
      impactQuoteLoop m is_bid required_global_opt now_slot rest
        remaining_base_atoms total_matched_quote_atoms
    else if resting_order.order_type = OrderType.Global ∧
        required_global_opt.isNone then
      some total_matched_quote_atoms
    else
      let matched_base_atoms := min resting_order.num_base_atoms remaining_base_atoms
      let did_fully_match_resting_order :=
        decide (remaining_base_atoms ≥ resting_order.num_base_atoms)
      match resting_order.price.checked_quote_for_base matched_base_atoms
          (is_bid != did_fully_match_resting_order) with
      | none => none
      | some matched_quote_atoms =>
        if m.is_unbacked_global_order resting_order is_bid required_global_opt
            matched_base_atoms matched_quote_atoms then
          impactQuoteLoop m is_bid required_global_opt now_slot rest
            remaining_base_atoms total_matched_quote_atoms
        else
          match checked_add_u64 total_matched_quote_atoms matched_quote_atoms with
          | none => none
          | some total' =>
            if !did_fully_match_resting_order then some total'
            else
              match checked_sub_u64 remaining_base_atoms matched_base_atoms with
              | none => none
              | some remaining' =>
                impactQuoteLoop m is_bid required_global_opt now_slot rest
                  remaining' total'

/-- `Market::impact_quote_atoms_with_slot`: pick the opposite book side
and the per-side global accounts, then walk it accumulating quote atoms
from a base-atom cap. -/
def Market.impact_quote_atoms_with_slot (m : Market) (is_bid : Bool)
    (limit_base_atoms : Nat)
    (global_trade_accounts_opts : Option GlobalTradeAccounts × Option GlobalTradeAccounts)
    (now_slot : Nat) : Option Nat :=
  let book := if is_bid then m.asks else m.bids
  let required_global_opt :=
    if is_bid then global_trade_accounts_opts.1 else global_trade_accounts_opts.2
  impactQuoteLoop m is_bid required_global_opt now_slot book limit_base_atoms 0

/-- The loop body of `Market::impact_base_atoms_with_slot`, carrying
`remaining_quote_atoms` and `total_matched_base_atoms`.  Mirrors the
source: skip expired; stop on a global order with no accounts; cap the
match by `checked_base_for_quote(remaining, !is_bid)`; convert the
matched base back to quote with taker-favor rounding iff
`is_bid != did_fully_match`; skip unbacked global orders; accumulate
base; stop after a partial fill or when the quote cap reaches zero. -/
def impactBaseLoop (m : Market) (is_bid : Bool)
    (required_global_opt : Option GlobalTradeAccounts) (now_slot : Nat) :
    List RestingOrder → Nat → Nat → Option Nat
  | [], _, total_matched_base_atoms => some total_matched_base_atoms
  | resting_order :: rest, remaining_quote_atoms, total_matched_base_atoms =>
    if resting_order.is_expired now_slot then
      impactBaseLoop m is_bid required_global_opt now_slot rest
        remaining_quote_atoms total_matched_base_atoms
    else if resting_order.order_type = OrderType.Global ∧
        required_global_opt.isNone then
      some total_matched_base_atoms
    else
      match resting_order.price.checked_base_for_quote remaining_quote_atoms
          (!is_bid) with
      | none => none
      | some base_atoms_limit =>
        let matched_base_atoms := min resting_order.num_base_atoms base_atoms_limit
        let did_fully_match_resting_order :=
          decide (base_atoms_limit ≥ resting_order.num_base_atoms)
        match resting_order.price.checked_quote_for_base matched_base_atoms
            (is_bid != did_fully_match_resting_order) with
        | none => none
        | some matched_quote_atoms =>
          if m.is_unbacked_global_order resting_order is_bid required_global_opt
              matched_base_atoms matched_quote_atoms then
            impactBaseLoop m is_bid required_global_opt now_slot rest
              remaining_quote_atoms total_matched_base_atoms
          else
            match checked_add_u64 total_matched_base_atoms matched_base_atoms with
            | none => none
            | some total' =>
              if !did_fully_match_resting_order then some total'
              else
                match checked_sub_u64 remaining_quote_atoms matched_quote_atoms with
                | none => none
                | some remaining' =>
                  if remaining' = 0 then some total'
                  else
                    impactBaseLoop m is_bid required_global_opt now_slot rest
                      remaining' total'

/-- `Market::impact_base_atoms_with_slot`: pick the opposite book side
and the per-side global accounts, then walk it accumulating base atoms
from a quote-atom cap. -/
def Market.impact_base_atoms_with_slot (m : Market) (is_bid : Bool)
    (limit_quote_atoms : Nat)
    (global_trade_accounts_opts : Option GlobalTradeAccounts × Option GlobalTradeAccounts)
    (now_slot : Nat) : Option Nat :=
  let book := if is_bid then m.asks else m.bids
  let required_global_opt :=
    if is_bid then global_trade_accounts_opts.1 else global_trade_accounts_opts.2
  impactBaseLoop m is_bid required_global_opt now_slot book limit_quote_atoms 0

/-! Concrete instances used by the scenario theorems and witnesses. -/

/-- A resting bid at mantissa price 1. -/
def bidAt1 : RestingOrder :=
  { price := ⟨1⟩, num_base_atoms := 10, sequence_number := 0,
    trader_index := 0, last_valid_slot := 0, is_bid := true,
    order_type := OrderType.Limit, reverse_spread := 0 }

/-- A resting bid at mantissa price 2. -/
def bidAt2 : RestingOrder := { bidAt1 with price := ⟨2⟩ }

/-- A resting ask at mantissa price 1. -/
def askAt1 : RestingOrder := { bidAt1 with is_bid := false }

/-- A resting ask at mantissa price 2. -/
def askAt2 : RestingOrder := { bidAt2 with is_bid := false }

/-- A `Limit` order of trader index 0. -/
def limitT0 : RestingOrder :=
  { price := ⟨5⟩, num_base_atoms := 10, sequence_number := 0,
    trader_index := 0, last_valid_slot := 0, is_bid := true,
    order_type := OrderType.Limit, reverse_spread := 0 }

/-- The same `Limit` order but owned by trader index 1. -/
def limitT1 : RestingOrder := { limitT0 with trader_index := 1 }

/-- A `Reverse` order at mantissa price 5. -/
def revAt5 : RestingOrder := { limitT0 with order_type := OrderType.Reverse }

/-- A `Reverse` order at mantissa price 6, same trader. -/
def revAt6 : RestingOrder := { revAt5 with price := ⟨6⟩ }

/-- A `Reverse` order at mantissa price 0. -/
def revAt0 : RestingOrder := { revAt5 with price := ⟨0⟩ }

/-- A `Reverse` order at the maximum `u128` mantissa price. -/
def revAtMax : RestingOrder := { revAt5 with price := ⟨u128Limit - 1⟩ }

/-- The spec's scenario ask: price 2.0 quote per base, 100 base atoms, no
expiration. -/
def scenarioAsk : RestingOrder :=
  { price := ⟨2 * PRICE_SCALE⟩, num_base_atoms := 100, sequence_number := 0,
    trader_index := 0, last_valid_slot := 0, is_bid := false,
    order_type := OrderType.Limit, reverse_spread := 0 }

/-- A market whose only order is `scenarioAsk`. -/
def scenarioMarket : Market :=
  { bids := [], asks := [scenarioAsk], trader_key_by_index := fun _ => 0 }

/-- The scenario ask as a `Global`-typed order. -/
def scenarioGlobalAsk : RestingOrder :=
  { scenarioAsk with order_type := OrderType.Global }

/-- A market whose only order is the `Global`-typed scenario ask. -/
def scenarioGlobalMarket : Market :=
  { bids := [], asks := [scenarioGlobalAsk], trader_key_by_index := fun _ => 0 }

/-- A worse-priced (3.0) non-global ask behind the global one. -/
def scenarioWorseAsk : RestingOrder :=
  { price := ⟨3 * PRICE_SCALE⟩, num_base_atoms := 100, sequence_number := 1,
    trader_index := 1, last_valid_slot := 0, is_bid := false,
    order_type := OrderType.Limit, reverse_spread := 0 }

/-- A market with the global ask first and the worse-priced limit ask
behind it. -/
def scenarioTwoAskMarket : Market :=
  { bids := [], asks := [scenarioGlobalAsk, scenarioWorseAsk],
    trader_key_by_index := fun _ => 0 }

/-- Global trade accounts whose global account holds no deposits, so
every balance reads zero. -/
def emptyGlobalAccounts : GlobalTradeAccounts :=
  ⟨{ traders := [], deposits := fun _ => ⟨0, 0⟩ }⟩

/-- A `Reverse` bid with spread 50000 (half of the 100000 denominator)
at mantissa price 100000. -/
def reverseBidHalfSpread : RestingOrder :=
  { price := ⟨100000⟩, num_base_atoms := 5, sequence_number := 0,
    trader_index := 0, last_valid_slot := 0, is_bid := true,
    order_type := OrderType.Reverse, reverse_spread := 50000 }

/-- The same order on the ask side. -/
def reverseAskHalfSpread : RestingOrder := { reverseBidHalfSpread with is_bid := false }

/-- A global account holding one trader (key 7) whose deposit node sits
at arena index 3 with balance 42. -/
def sampleGlobalAccount : GlobalAccount :=
  { traders := [⟨7, 3⟩],
    deposits := fun i => if i = 3 then ⟨7, 42⟩ else ⟨0, 0⟩ }

/-- The scenario ask with expiration slot 3 (expired at slot 5). -/
def expiredAsk : RestingOrder := { scenarioAsk with last_valid_slot := 3 }

/-- Price equality is equality of the 128-bit representation. -/
theorem price_eq_iff_inner {p q : QuoteAtomsPerBaseAtom} :
    p = q ↔ p.inner = q.inner := by
  cases p
  cases q
  simp

/-- Claim C5 (confirmed): for a book with a single resting ask at price
2.0 quote per base, 100 base atoms, no expiration, impact-by-base-limit
with `is_bid = true` and base cap 50 returns 100 quote atoms, and with
base cap 200 returns 200 quote atoms (the book's full amount, with no
distinct underfill signal in the `Ok` return). -/
theorem claim5_impact_scenario :
    scenarioMarket.impact_quote_atoms_with_slot true 50 (none, none) 7 = some 100 ∧
    scenarioMarket.impact_quote_atoms_with_slot true 200 (none, none) 7 = some 200 ∧
    scenarioAsk.price.inner = 2 * PRICE_SCALE ∧
    scenarioAsk.num_base_atoms = 100 ∧
    scenarioAsk.last_valid_slot = NO_EXPIRATION_LAST_VALID_SLOT := by
  refine ⟨by decide, by decide, by decide, by decide, by decide⟩

/-- Claim C9 (confirmed): the global-ledger balance query returns zero
when the trader is absent from the identity tree, and otherwise the
balance stored in the deposit node linked from the trader's entry. -/
theorem claim9_get_balance (g : GlobalAccount) (trader : Nat) :
    (g.traders.find? (fun gt => gt.trader == trader) = none →
      g.get_balance_atoms trader = 0) ∧
    (∀ gt, g.traders.find? (fun gt => gt.trader == trader) = some gt →
      g.get_balance_atoms trader = (g.deposits gt.deposit_index).balance_atoms) := by
  constructor
  · intro h
    simp [GlobalAccount.get_balance_atoms, get_global_deposit, h]
  · intro gt h
    simp [GlobalAccount.get_balance_atoms, get_global_deposit, h]

/-- Witness for C9 on `sampleGlobalAccount`: trader 9 is absent (balance
0); trader 7 is present with deposit index 3 (balance 42). -/
theorem claim9_witness :
    sampleGlobalAccount.get_balance_atoms 9 = 0 ∧
    sampleGlobalAccount.get_balance_atoms 7 = 42 := by
  constructor
  · exact (claim9_get_balance sampleGlobalAccount 9).1 (by decide)
  · exact (claim9_get_balance sampleGlobalAccount 7).2 ⟨7, 3⟩ (by decide)

/-- Claim C7 (confirmed): constructing a `RestingOrder` with a
reversible order type and a non-zero expiration slot hits the
construction assertion (embedded as `none`; the source's `Result` is
never `Err`, so the failure is the fatal assertion, not a recoverable
error), and every successfully constructed order satisfies: reversible
order type implies expiration slot 0. -/
theorem claim7_reversible_no_expiration :
    (∀ (ti nb : Nat) (p : QuoteAtomsPerBaseAtom) (sq lvs : Nat) (ib : Bool)
      (ot : OrderType), ot.is_reversible = true → lvs ≠ 0 →
      RestingOrder.new ti nb p sq lvs ib ot = none) ∧
    (∀ (ti nb : Nat) (p : QuoteAtomsPerBaseAtom) (sq lvs : Nat) (ib : Bool)
      (ot : OrderType) (o : RestingOrder),
      RestingOrder.new ti nb p sq lvs ib ot = some o →
      o.order_type.is_reversible = true → o.last_valid_slot = 0) := by
  constructor
  · intro ti nb p sq lvs ib ot hrev hlvs
    simp [RestingOrder.new, NO_EXPIRATION_LAST_VALID_SLOT, hrev, hlvs]
  · intro ti nb p sq lvs ib ot o hnew hrev
    unfold RestingOrder.new at hnew
    split at hnew
    · simp at hnew
    · rename_i hcond
      obtain rfl := Option.some.inj hnew
      push_neg at hcond
      have hr : ot.is_reversible = true := hrev
      show lvs = 0
      simpa [NO_EXPIRATION_LAST_VALID_SLOT] using hcond hr

/-- Witness for C7: a `Reverse` order with expiration slot 5 fails
construction, and one with expiration 0 constructs with expiration 0. -/
theorem claim7_witness :
    RestingOrder.new 0 1 ⟨1⟩ 0 5 true OrderType.Reverse = none ∧
    ∃ o, RestingOrder.new 0 1 ⟨1⟩ 0 0 true OrderType.Reverse = some o ∧
      o.last_valid_slot = 0 := by
  constructor
  · exact claim7_reversible_no_expiration.1 0 1 ⟨1⟩ 0 5 true OrderType.Reverse
      (by decide) (by decide)
  · refine ⟨_, rfl, ?_⟩
    exact claim7_reversible_no_expiration.2 0 1 ⟨1⟩ 0 0 true OrderType.Reverse _
      rfl (by decide)

/-- Counterexample to C1 as stated: the claim requires the book-side
comparison to order bids descending by price (lower price compares
greater) and asks ascending (lower price compares less).  For the bids
at prices 1 < 2 the comparison yields `lt`, not the `gt` a descending
order requires, and for the asks at prices 1 < 2 it yields `gt`, not
`lt`. -/
theorem claim1_counterexample :
    bidAt1.is_bid = true ∧ bidAt2.is_bid = true ∧
    bidAt1.price.inner < bidAt2.price.inner ∧
    RestingOrder.cmp bidAt1 bidAt2 = Ordering.lt ∧
    Ordering.lt ≠ Ordering.gt ∧
    askAt1.is_bid = false ∧ askAt2.is_bid = false ∧
    askAt1.price.inner < askAt2.price.inner ∧
    RestingOrder.cmp askAt1 askAt2 = Ordering.gt := by
  decide

/-- Claim C1 (corrected): the book-side comparison orders bids
*ascending* by price — the higher-priced bid compares greater, so the
best bid is the tree maximum — and asks *descending* by price — the
lower-priced ask compares greater, so the best ask is also the tree
maximum (not the minimum). -/
theorem claim1_cmp_direction (a b : RestingOrder) :
    (a.is_bid = true → b.is_bid = true →
      (RestingOrder.cmp a b = Ordering.gt ↔ b.price.inner < a.price.inner)) ∧
    (a.is_bid = false → b.is_bid = false →
      (RestingOrder.cmp a b = Ordering.gt ↔ a.price.inner < b.price.inner)) := by
  constructor
  · intro ha _
    simp [RestingOrder.cmp, ha, Nat.compare_eq_gt]
  · intro ha _
    simp [RestingOrder.cmp, ha, Nat.compare_eq_gt]

/-- Witness for C1: the higher-priced bid compares greater than the
lower-priced one, and the lower-priced ask compares greater than the
higher-priced one. -/
theorem claim1_witness :
    RestingOrder.cmp bidAt2 bidAt1 = Ordering.gt ∧
    RestingOrder.cmp askAt1 askAt2 = Ordering.gt := by
  constructor
  · exact ((claim1_cmp_direction bidAt2 bidAt1).1 (by decide) (by decide)).mpr
      (by decide)
  · exact ((claim1_cmp_direction askAt1 askAt2).2 (by decide) (by decide)).mpr
      (by decide)

/-- Counterexample to C2 as stated: the claim says the lookup equality of
two non-reversible orders is true exactly when their prices are equal.
These two `Limit` orders have equal prices but different trader indices,
and the equality test returns false (the source first compares
`trader_index` and `order_type`). -/
theorem claim2_counterexample :
    limitT0.order_type = OrderType.Limit ∧
    limitT1.order_type = OrderType.Limit ∧
    OrderType.Limit.is_reversible = false ∧
    limitT0.price = limitT1.price ∧
    limitT0.trader_index ≠ limitT1.trader_index ∧
    RestingOrder.eq limitT0 limitT1 = false := by
  decide

/-- Claim C2 (corrected): the lookup equality returns true exactly when
the trader indices and order types are equal and — for non-reversible
types — the prices are equal; for reversible types the prices may
instead differ by exactly one in the 128-bit representation (coalescing
of re-quotes).  The reversible biconditional is stated away from the
wrap-around edges of the source's unchecked `u128` arithmetic
(`1 ≤ inner` and `inner + 1 < 2^128`). -/
theorem claim2_eq_semantics (a b : RestingOrder) :
    (a.order_type.is_reversible = false →
      (RestingOrder.eq a b = true ↔
        a.trader_index = b.trader_index ∧ a.order_type = b.order_type ∧
          a.price = b.price)) ∧
    (a.order_type.is_reversible = true → 1 ≤ a.price.inner →
      a.price.inner + 1 < u128Limit →
      (RestingOrder.eq a b = true ↔
        a.trader_index = b.trader_index ∧ a.order_type = b.order_type ∧
          (a.price.inner = b.price.inner ∨ a.price.inner + 1 = b.price.inner ∨
            a.price.inner - 1 = b.price.inner))) := by
  constructor
  · intro hrev
    unfold RestingOrder.eq
    split
    · rename_i h
      simp only [Bool.false_eq_true, false_iff]
      intro ⟨h1, h2, _⟩
      exact h.elim (fun hne => hne h1) (fun hne => hne h2)
    · rename_i h
      push_neg at h
      have hrev2 : b.order_type.is_reversible = false := h.2 ▸ hrev
      simp [h.1, h.2, hrev2]
  · intro hrev hlo hhi
    unfold RestingOrder.eq
    split
    · rename_i h
      simp only [Bool.false_eq_true, false_iff]
      intro ⟨h1, h2, _⟩
      exact h.elim (fun hne => hne h1) (fun hne => hne h2)
    · rename_i h
      push_neg at h
      have e1 : (a.price.inner + 1) % u128Limit = a.price.inner + 1 :=
        Nat.mod_eq_of_lt hhi
      have e2 : (a.price.inner + (u128Limit - 1)) % u128Limit =
          a.price.inner - 1 := by
        have h128 : 1 ≤ u128Limit := by norm_num [u128Limit]
        have : a.price.inner + (u128Limit - 1) =
            (a.price.inner - 1) + u128Limit := by omega
        rw [this, Nat.add_mod_right]
        exact Nat.mod_eq_of_lt (by omega)
      simp [e1, e2, h.1, h.2, price_eq_iff_inner]
      exact or_assoc

/-- Witness for C2: equal-price `Limit` orders of the same trader are
equal; `Reverse` orders whose representations are 5 and 6 (differing by
one) are equal. -/
theorem claim2_witness :
    RestingOrder.eq limitT0 limitT0 = true ∧
    RestingOrder.eq revAt5 revAt6 = true := by
  constructor
  · exact ((claim2_eq_semantics limitT0 limitT0).1 (by decide)).mpr
      ⟨rfl, rfl, rfl⟩
  · exact ((claim2_eq_semantics revAt5 revAt6).2 (by decide) (by decide)
      (by decide)).mpr ⟨rfl, rfl, by decide⟩

/-- Claim C10 (code bug): the claim says the reversible equality test is
total — it evaluates without unsigned underflow even at a zero price
representation.  The source computes `price - 1` on an unchecked `u128`:
with `price.inner = 0` against `5` the subtraction is reached and
underflows (`eqSubUnderflows` is true — a panic in debug builds), and in
release builds the wrap makes a zero-price `Reverse` order compare
*equal* to one priced at the maximum representation `2^128 - 1`. -/
theorem claim10_underflow :
    revAt0.order_type.is_reversible = true ∧
    revAt0.trader_index = revAt5.trader_index ∧
    revAt0.order_type = revAt5.order_type ∧
    revAt0.price.inner = 0 ∧
    RestingOrder.eqSubUnderflows revAt0 revAt5 = true ∧
    revAtMax.price.inner = u128Limit - 1 ∧
    RestingOrder.eq revAt0 revAtMax = true := by
  refine ⟨by decide, by decide, by decide, by decide, by decide, by decide, ?_⟩
  decide

/-- Claim C6 (confirmed): an order is expired exactly when its
expiration slot is non-zero and strictly less than the current slot —
so expiration equal to the current slot is not expired and expiration 0
never expires — and both impact walks skip an expired order, leaving the
remaining cap and accumulated total untouched. -/
theorem claim6_expiration :
    (∀ (o : RestingOrder) (s : Nat),
      o.is_expired s = true ↔ o.last_valid_slot ≠ 0 ∧ o.last_valid_slot < s) ∧
    (∀ o : RestingOrder, o.is_expired o.last_valid_slot = false) ∧
    (∀ (o : RestingOrder) (s : Nat), o.last_valid_slot = 0 →
      o.is_expired s = false) ∧
    (∀ (m : Market) (is_bid : Bool) (gopt : Option GlobalTradeAccounts)
      (s : Nat) (o : RestingOrder) (rest : List RestingOrder) (r t : Nat),
      o.is_expired s = true →
      impactQuoteLoop m is_bid gopt s (o :: rest) r t =
        impactQuoteLoop m is_bid gopt s rest r t) ∧
    (∀ (m : Market) (is_bid : Bool) (gopt : Option GlobalTradeAccounts)
      (s : Nat) (o : RestingOrder) (rest : List RestingOrder) (r t : Nat),
      o.is_expired s = true →
      impactBaseLoop m is_bid gopt s (o :: rest) r t =
        impactBaseLoop m is_bid gopt s rest r t) := by
  refine ⟨?_, ?_, ?_, ?_, ?_⟩
  · intro o s
    simp [RestingOrder.is_expired, NO_EXPIRATION_LAST_VALID_SLOT]
  · intro o
    simp [RestingOrder.is_expired, NO_EXPIRATION_LAST_VALID_SLOT]
  · intro o s h
    simp [RestingOrder.is_expired, NO_EXPIRATION_LAST_VALID_SLOT, h]
  · intro m is_bid gopt s o rest r t h
    rw [impactQuoteLoop, if_pos h]
  · intro m is_bid gopt s o rest r t h
    rw [impactBaseLoop, if_pos h]

/-- Witness for C6: the expired ask (expiration 3 < slot 5) is expired,
is not expired at slot 3 itself, and both walks skip it. -/
theorem claim6_witness :
    expiredAsk.is_expired 5 = true ∧
    expiredAsk.is_expired 3 = false ∧
    scenarioAsk.is_expired 5 = false ∧
    impactQuoteLoop scenarioMarket true none 5 [expiredAsk] 50 0 =
      impactQuoteLoop scenarioMarket true none 5 [] 50 0 ∧
    impactBaseLoop scenarioMarket true none 5 [expiredAsk] 100 0 =
      impactBaseLoop scenarioMarket true none 5 [] 100 0 := by
  refine ⟨(claim6_expiration.1 expiredAsk 5).mpr (by decide), ?_, ?_, ?_, ?_⟩
  · exact (claim6_expiration.2.1 expiredAsk)
  · exact claim6_expiration.2.2.1 scenarioAsk 5 (by decide)
  · exact claim6_expiration.2.2.2.1 scenarioMarket true none 5 expiredAsk [] 50 0
      (by decide)
  · exact claim6_expiration.2.2.2.2 scenarioMarket true none 5 expiredAsk [] 100 0
      (by decide)

/-- Claim C3 (confirmed): in both impact walks, reaching a non-expired
`Global`-typed order with no global-backing context supplied stops the
walk entirely, returning the total accumulated so far; in particular a
book whose only order is a `Global` ask gives impact 0 with no context
supplied. -/
theorem claim3_unbacked_global_stops :
    (∀ (m : Market) (is_bid : Bool) (s : Nat) (g : RestingOrder)
      (rest : List RestingOrder) (r t : Nat),
      g.is_expired s = false → g.order_type = OrderType.Global →
      impactQuoteLoop m is_bid none s (g :: rest) r t = some t) ∧
    (∀ (m : Market) (is_bid : Bool) (s : Nat) (g : RestingOrder)
      (rest : List RestingOrder) (r t : Nat),
      g.is_expired s = false → g.order_type = OrderType.Global →
      impactBaseLoop m is_bid none s (g :: rest) r t = some t) ∧
    scenarioGlobalMarket.impact_quote_atoms_with_slot true 50 (none, none) 7 =
      some 0 ∧
    scenarioGlobalMarket.impact_base_atoms_with_slot true 100 (none, none) 7 =
      some 0 := by
  refine ⟨?_, ?_, by decide, by decide⟩
  · intro m is_bid s g rest r t hexp hglob
    rw [impactQuoteLoop, if_neg (by simp [hexp]), if_pos (by simp [hglob])]
  · intro m is_bid s g rest r t hexp hglob
    rw [impactBaseLoop, if_neg (by simp [hexp]), if_pos (by simp [hglob])]

/-- Witness for C3: both loops stop at the `Global` scenario ask with no
context, returning the accumulated total (here 0). -/
theorem claim3_witness :
    impactQuoteLoop scenarioGlobalMarket true none 7 [scenarioGlobalAsk] 50 0 =
      some 0 ∧
    impactBaseLoop scenarioGlobalMarket true none 7 [scenarioGlobalAsk] 100 0 =
      some 0 := by
  constructor
  · exact claim3_unbacked_global_stops.1 scenarioGlobalMarket true 7
      scenarioGlobalAsk [] 50 0 (by decide) (by decide)
  · exact claim3_unbacked_global_stops.2.1 scenarioGlobalMarket true 7
      scenarioGlobalAsk [] 100 0 (by decide) (by decide)

/-- Claim C4 (confirmed): in both impact walks, when global-backing
context is supplied but the `Global` order's backing balance is below
the matched amount (base for a taker bid, quote for a taker ask), that
order alone is skipped: it adds nothing to the total, the remaining cap
is unchanged, and the walk continues with the next order; in the
scenario, the unbacked global ask is skipped and the worse-priced
non-global ask behind it is still counted (50 base at price 3.0 =
150 quote atoms). -/
theorem claim4_insufficient_backing_skips :
    (∀ (m : Market) (is_bid : Bool) (s : Nat) (g : RestingOrder)
      (rest : List RestingOrder) (r t : Nat) (acc : GlobalTradeAccounts)
      (mq : Nat),
      g.is_expired s = false → g.order_type = OrderType.Global →
      g.price.checked_quote_for_base (min g.num_base_atoms r)
        (is_bid != decide (r ≥ g.num_base_atoms)) = some mq →
      acc.global.get_balance_atoms (m.trader_key_by_index g.trader_index) <
        (if is_bid then min g.num_base_atoms r else mq) →
      impactQuoteLoop m is_bid (some acc) s (g :: rest) r t =
        impactQuoteLoop m is_bid (some acc) s rest r t) ∧
    (∀ (m : Market) (is_bid : Bool) (s : Nat) (g : RestingOrder)
      (rest : List RestingOrder) (r t : Nat) (acc : GlobalTradeAccounts)
      (bl mq : Nat),
      g.is_expired s = false → g.order_type = OrderType.Global →
      g.price.checked_base_for_quote r (!is_bid) = some bl →
      g.price.checked_quote_for_base (min g.num_base_atoms bl)
        (is_bid != decide (bl ≥ g.num_base_atoms)) = some mq →
      acc.global.get_balance_atoms (m.trader_key_by_index g.trader_index) <
        (if is_bid then min g.num_base_atoms bl else mq) →
      impactBaseLoop m is_bid (some acc) s (g :: rest) r t =
        impactBaseLoop m is_bid (some acc) s rest r t) ∧
    scenarioTwoAskMarket.impact_quote_atoms_with_slot true 50
      (some emptyGlobalAccounts, none) 7 = some 150 ∧
    scenarioWorseAsk.order_type = OrderType.Limit ∧
    scenarioWorseAsk.price.inner = 3 * PRICE_SCALE := by
  refine ⟨?_, ?_, by decide, by decide, by decide⟩
  · intro m is_bid s g rest r t acc mq hexp hglob hconv hbal
    have hunb : m.is_unbacked_global_order g is_bid (some acc)
        (min g.num_base_atoms r) mq = true := by
      have hfb : can_back_order (some acc) (m.trader_key_by_index g.trader_index)
          (if is_bid then min g.num_base_atoms r else mq) = false := by
        simp only [can_back_order, decide_eq_false_iff_not]
        omega
      rw [Market.is_unbacked_global_order, if_pos hglob, if_neg (by simp), hfb]
      simp
    rw [impactQuoteLoop, if_neg (by simp [hexp]), if_neg (by simp)]
    dsimp only
    rw [hconv]
    dsimp only
    rw [if_pos hunb]
  · intro m is_bid s g rest r t acc bl mq hexp hglob hbl hconv hbal
    have hunb : m.is_unbacked_global_order g is_bid (some acc)
        (min g.num_base_atoms bl) mq = true := by
      have hfb : can_back_order (some acc) (m.trader_key_by_index g.trader_index)
          (if is_bid then min g.num_base_atoms bl else mq) = false := by
        simp only [can_back_order, decide_eq_false_iff_not]
        omega
      rw [Market.is_unbacked_global_order, if_pos hglob, if_neg (by simp), hfb]
      simp
    rw [impactBaseLoop, if_neg (by simp [hexp]), if_neg (by simp)]
    rw [hbl]
    dsimp only
    rw [hconv]
    dsimp only
    rw [if_pos hunb]

/-- Witness for C4: with context supplied and a zero backing balance, the
global scenario ask is skipped by both loops (the quote loop with 50
base remaining, the base loop with 100 quote remaining). -/
theorem claim4_witness :
    impactQuoteLoop scenarioTwoAskMarket true (some emptyGlobalAccounts) 7
      [scenarioGlobalAsk] 50 0 =
      impactQuoteLoop scenarioTwoAskMarket true (some emptyGlobalAccounts) 7
        [] 50 0 ∧
    impactBaseLoop scenarioTwoAskMarket true (some emptyGlobalAccounts) 7
      [scenarioGlobalAsk] 100 0 =
      impactBaseLoop scenarioTwoAskMarket true (some emptyGlobalAccounts) 7
        [] 100 0 := by
  constructor
  · exact claim4_insufficient_backing_skips.1 scenarioTwoAskMarket true 7
      scenarioGlobalAsk [] 50 0 emptyGlobalAccounts 100
      (by decide) (by decide) (by decide) (by decide)
  · exact claim4_insufficient_backing_skips.2.1 scenarioTwoAskMarket true 7
      scenarioGlobalAsk [] 100 0 emptyGlobalAccounts 50 100
      (by decide) (by decide) (by decide) (by decide) (by decide)

/-- Round-up rational multiply by `num/den` with `num ≤ den` never
overflows the 128-bit bound: it returns the ceiling directly. -/
theorem checked_multiply_rational_up_le (p : QuoteAtomsPerBaseAtom)
    (num den : Nat) (hden : 0 < den) (hnum : num ≤ den)
    (hp : p.inner < u128Limit) :
    p.checked_multiply_rational num den true =
      some ⟨(p.inner * num + (den - 1)) / den⟩ := by
  unfold QuoteAtomsPerBaseAtom.checked_multiply_rational
  rw [if_neg (by omega)]
  simp only [eq_self_iff_true, if_true]
  have hle : (p.inner * num + (den - 1)) / den ≤ p.inner := by
    rw [Nat.div_le_iff_le_mul_add_pred hden]
    have hmul : p.inner * num ≤ den * p.inner :=
      le_trans (Nat.mul_le_mul_left _ hnum) (le_of_eq (Nat.mul_comm _ _))
    omega
  rw [if_pos (lt_of_le_of_lt hle hp)]

/-- Round-down rational multiply: the floor when it fits in 128 bits,
else the overflow failure. -/
theorem checked_multiply_rational_down (p : QuoteAtomsPerBaseAtom)
    (num den : Nat) (hden : 0 < den) :
    p.checked_multiply_rational num den false =
      if p.inner * num / den < u128Limit then some ⟨p.inner * num / den⟩
      else none := by
  unfold QuoteAtomsPerBaseAtom.checked_multiply_rational
  rw [if_neg (by omega)]
  simp only [Bool.false_eq_true, if_false]

/-- Counterexample to C8 as stated: the claim says `reverse_price`
returns the price scaled by `(1 - spread/denominator)`.  For this
`Reverse` bid (price representation 100000, spread 50000 of denominator
100000) that scaled value is exactly 50000 under either rounding, but
the source divides a bid's price by `(1 - spread/denominator)`
(comment: "Bid @P --> Ask @P / (1 - spread)") and returns 200000. -/
theorem claim8_counterexample :
    reverseBidHalfSpread.order_type = OrderType.Reverse ∧
    reverseBidHalfSpread.is_bid = true ∧
    reverseBidHalfSpread.price.inner = 100000 ∧
    reverseBidHalfSpread.reverse_spread = 50000 ∧
    (100000 * (100000 - 50000)) % 100000 = 0 ∧
    (100000 * (100000 - 50000)) / 100000 = 50000 ∧
    RestingOrder.reverse_price reverseBidHalfSpread = some ⟨200000⟩ ∧
    (200000 : Nat) ≠ 50000 := by
  decide

/-- Claim C8 (corrected): for a reversible order with denominator `d`
(100000 for `Reverse`, 100000000 for `ReverseTight`), `reverse_price` of
an *ask* is the price multiplied by `(d - spread)/d` — i.e. scaled by
`(1 - spread/d)` — rounded up (never overflowing, since the result is at
most the price), while for a *bid* it is the price multiplied by
`d/(d - spread)` — i.e. *divided* by `(1 - spread/d)` — rounded down,
failing rather than wrapping when the 128-bit result overflows. -/
theorem claim8_reverse_price (o : RestingOrder) (d : Nat) :
    (o.order_type = OrderType.Reverse ∧ d = 100000) ∨
      (o.order_type = OrderType.ReverseTight ∧ d = 100000000) →
    o.reverse_spread < d →
    o.price.inner < u128Limit →
    (o.is_bid = false →
      o.reverse_price =
        some ⟨(o.price.inner * (d - o.reverse_spread) + (d - 1)) / d⟩) ∧
    (o.is_bid = true →
      o.reverse_price =
        if o.price.inner * d / (d - o.reverse_spread) < u128Limit
        then some ⟨o.price.inner * d / (d - o.reverse_spread)⟩
        else none) := by
  intro hd hs hp
  rcases hd with ⟨ht, rfl⟩ | ⟨ht, rfl⟩ <;> constructor <;> intro hb <;>
    simp only [RestingOrder.reverse_price, ht, hb, Bool.false_eq_true,
      if_false, if_true]
  · exact checked_multiply_rational_up_le o.price _ _ (by omega)
      (Nat.sub_le _ _) hp
  · exact checked_multiply_rational_down o.price _ _ (by omega)
  · exact checked_multiply_rational_up_le o.price _ _ (by omega)
      (Nat.sub_le _ _) hp
  · exact checked_multiply_rational_down o.price _ _ (by omega)

/-- Witness for C8: the half-spread `Reverse` bid reverses to mantissa
200000 (price divided by one half, rounded down) and the matching ask
reverses to 50000 (price halved, rounded up). -/
theorem claim8_witness :
    RestingOrder.reverse_price reverseBidHalfSpread = some ⟨200000⟩ ∧
    RestingOrder.reverse_price reverseAskHalfSpread = some ⟨50000⟩ := by
  constructor
  · have h := (claim8_reverse_price reverseBidHalfSpread 100000
      (Or.inl ⟨by decide, rfl⟩) (by decide) (by decide)).2 (by decide)
    rw [h]
    decide
  · have h := (claim8_reverse_price reverseAskHalfSpread 100000
      (Or.inl ⟨by decide, rfl⟩) (by decide) (by decide)).1 (by decide)
    rw [h]
    decide

end Manifest
